import Mathlib

/-!
Verification of the candidate-service of the AI-Resume-Matcher repository.

The development shallowly embeds the two source files:

* `candidate-service/main.py` — the `embed_resume` endpoint: file validation
  (filename, extension, size, emptiness), text extraction (UTF-8 decoding for
  TXT, an external PDF extractor for PDF), a minimum-length check, attribute
  extraction, embedding, and a generic exception handler that classifies
  timeout/connection messages separately from other internal errors.
* `candidate-service/embed_jobs.py` — the ingestion script: `create_job_text`
  (space-join of job fields, HTML-tag removal, strip) and the metadata record
  built for each upserted vector.

Bytes are modelled as `List Nat` (values < 256 in practice), decoded text as
`List Nat` of Unicode code points, and the external collaborators that are not
part of the shown source (`extract_text_from_pdf`, `extract_resume_metadata`,
`get_embedding`) as function parameters returning `Except String _`, where a
`.error msg` models a raised Python exception carrying message `msg`.
Wall-clock fields (`processing_time_ms`) and the human-readable size numbers
interpolated into the file-too-large message are not modelled.
-/

namespace ResumeMatcher

/-- Code points treated as whitespace by Python's `str.strip()` /
`str.isspace()` (ASCII whitespace, the C1 space-like controls, and the Unicode
space separators). -/
def isPySpace (c : Nat) : Bool :=
  [9, 10, 11, 12, 13, 28, 29, 30, 31, 32, 133, 160, 5760,
   8192, 8193, 8194, 8195, 8196, 8197, 8198, 8199, 8200, 8201, 8202,
   8232, 8233, 8239, 8287, 12288].contains c

/-- The same whitespace test on `Char`. -/
def isPySpaceChar (c : Char) : Bool := isPySpace c.toNat

/-- Python `str.strip()`: remove the elements satisfying `ws` from both ends. -/
def pyStrip {α : Type} (ws : α → Bool) (l : List α) : List α :=
  ((l.dropWhile ws).reverse.dropWhile ws).reverse

/-- Is `b` a UTF-8 continuation byte (`0x80`–`0xBF`)? -/
def contByte (b : Nat) : Bool := 128 ≤ b && b ≤ 191

/-- Decode one UTF-8 sequence starting with byte `b` followed by `rest`:
the code point and the remaining bytes, or `none` on an invalid start byte,
a bad or missing continuation byte, an overlong encoding, a surrogate, or a
value above `U+10FFFF` — exactly the sequences Python's strict
`bytes.decode("utf-8")` rejects. -/
def utf8Step (b : Nat) (rest : List Nat) : Option (Nat × List Nat) :=
  if b ≤ 127 then some (b, rest)
  else if 194 ≤ b && b ≤ 223 then
    match rest with
    | c1 :: rest2 =>
      if contByte c1 then some ((b - 192) * 64 + (c1 - 128), rest2) else none
    | [] => none
  else if 224 ≤ b && b ≤ 239 then
    match rest with
    | c1 :: c2 :: rest2 =>
      if (if b = 224 then 160 ≤ c1 && c1 ≤ 191
          else if b = 237 then 128 ≤ c1 && c1 ≤ 159
          else contByte c1) && contByte c2 then
        some ((b - 224) * 4096 + (c1 - 128) * 64 + (c2 - 128), rest2)
      else none
    | _ => none
  else if 240 ≤ b && b ≤ 244 then
    match rest with
    | c1 :: c2 :: c3 :: rest2 =>
      if (if b = 240 then 144 ≤ c1 && c1 ≤ 191
          else if b = 244 then 128 ≤ c1 && c1 ≤ 143
          else contByte c1) && contByte c2 && contByte c3 then
        some ((b - 240) * 262144 + (c1 - 128) * 4096
                + (c2 - 128) * 64 + (c3 - 128), rest2)
      else none
    | _ => none
  else none

/-- Iterate `utf8Step` over the byte list. The fuel only serves to make the
recursion structural: each step consumes at least one byte, so any fuel of at
least the list's length never runs out. -/
def utf8DecodeFuel : Nat → List Nat → Option (List Nat)
  | _, [] => some []
  | 0, _ :: _ => none
  | fuel + 1, b :: rest =>
    match utf8Step b rest with
    | none => none
    | some (cp, rest2) => (utf8DecodeFuel fuel rest2).map (fun t => cp :: t)

/-- Strict UTF-8 decoding of a byte list into Unicode code points, following
Python's `bytes.decode("utf-8")`; returns `none` exactly when Python raises
`UnicodeDecodeError`. -/
def utf8Decode (bytes : List Nat) : Option (List Nat) :=
  utf8DecodeFuel bytes.length bytes

/-- An uploaded file as the endpoint sees it: the declared filename and the
raw bytes (`await file.read()`). -/
structure UploadFile where
  filename : String
  contents : List Nat
  deriving DecidableEq, Repr

/-- The distinct `detail` payloads raised by `embed_resume` (`main.py`).
Message text is abstracted to one constructor per raise site; the
file-too-large message interpolates the observed size, kept here as a field. -/
inductive Detail where
  | filenameRequired
  | unsupportedType
  | fileTooLarge (file_size : Nat)
  | emptyFile
  | invalidEncoding
  | insufficientText
  | connectionTimeout
  | processingError (msg : String)
  deriving DecidableEq, Repr

/-- `fastapi.HTTPException` as raised by `embed_resume`. -/
structure HTTPException where
  status_code : Nat
  detail : Detail
  deriving DecidableEq, Repr

/-- The error taxonomy of the spec (§7): client-input errors, provider
transient errors, and other internal errors. -/
inductive ErrClass where
  | clientInput
  | providerTransient
  | internalError
  deriving DecidableEq, Repr

/-- Classification of each raise site of `embed_resume` into the §7 taxonomy. -/
def errClass : Detail → ErrClass
  | .filenameRequired => .clientInput
  | .unsupportedType => .clientInput
  | .fileTooLarge _ => .clientInput
  | .emptyFile => .clientInput
  | .invalidEncoding => .clientInput
  | .insufficientText => .clientInput
  | .connectionTimeout => .providerTransient
  | .processingError _ => .internalError

/-- The success payload of `embed_resume` (`main.py` lines 89–99), minus the
wall-clock `processing_time_ms` field. -/
structure EmbedResponse (μ : Type) where
  status : String
  filename : String
  file_size_bytes : Nat
  text_length : Nat
  embedding_dimension : Nat
  resume_text : List Nat
  resume_metadata : μ
  message : String
  deriving DecidableEq, Repr

/-- Modelled from the spec: `MAX_FILE_SIZE` is imported from
`candidate_service.config`, a module not part of the shown source; the spec
(§4.1 and the endpoint docstring) fixes the maximum at 10MB. -/
def MAX_FILE_SIZE : Nat := 10 * 1024 * 1024

/-- Python `str.split('.')`: split at every dot; adjacent dots and dots at
either end contribute empty pieces, and the empty string yields one empty
piece. -/
def splitDot : List Char → List (List Char)
  | [] => [[]]
  | c :: rest =>
    let r := splitDot rest
    if c == '.' then [] :: r
    else (c :: r.headD []) :: r.tail

/-- `file_ext` computation of `main.py` line 46:
`file.filename.lower().split('.')[-1] if '.' in file.filename else ''`.
Lowercasing is per-character (`Char.toLower`), which agrees with Python on
the ASCII extensions compared against. -/
def extOf (filename : String) : String :=
  if filename.data.contains '.' then
    ⟨(splitDot (filename.data.map Char.toLower)).getLastD []⟩
  else ""

/-- Python's `in` on strings: does `pat` occur contiguously in the list? -/
def isSubstrOf (pat : List Char) : List Char → Bool
  | [] => pat.isEmpty
  | c :: rest => pat.isPrefixOf (c :: rest) || isSubstrOf pat rest

/-- The handler test of `main.py` line 105:
`"timeout" in error_msg.lower() or "connection" in error_msg.lower()`. -/
def transientMsg (msg : String) : Bool :=
  isSubstrOf "timeout".data (msg.data.map Char.toLower)
    || isSubstrOf "connection".data (msg.data.map Char.toLower)

/-- An error escaping the `try` block of `embed_resume`: either an
`HTTPException` raised inside it, or an ordinary Python exception with its
message. -/
inductive InnerErr where
  | http (e : HTTPException)
  | exn (msg : String)
  deriving DecidableEq, Repr

/-- The text-extraction stage of the `try` block (`main.py` lines 67–73):
PDF files go to the external extractor (whose raised exceptions propagate as
`.exn`); TXT files are strictly UTF-8 decoded, a decoding failure raising the
`InvalidEncoding` 400. -/
def extractStage (epdf : List Nat → Except String (List Nat))
    (file_bytes : List Nat) (file_ext : String) :
    Except InnerErr (List Nat) :=
  if file_ext = "pdf" then
    match epdf file_bytes with
    | .ok t => .ok t
    | .error m => .error (.exn m)
  else
    match utf8Decode file_bytes with
    | some t => .ok t
    | none => .error (.http ⟨400, .invalidEncoding⟩)

/-- The body of the `try` block of `embed_resume` (`main.py` lines 51–99),
parameterised by the collaborators that are not part of the shown source:
the PDF extractor, the attribute extractor and the embedding client. The
source's locals `file_bytes = await file.read()` and
`file_size = len(file_bytes)` are inlined as `file.contents` and
`file.contents.length`. -/
def tryBody {μ : Type} (epdf : List Nat → Except String (List Nat))
    (emeta : List Nat → Except String μ)
    (eemb : List Nat → Except String (List Rat))
    (file : UploadFile) (file_ext : String) :
    Except InnerErr (EmbedResponse μ) :=
  if file.contents.length > MAX_FILE_SIZE then
    .error (.http ⟨400, .fileTooLarge file.contents.length⟩)
  else if file.contents.length = 0 then
    .error (.http ⟨400, .emptyFile⟩)
  else
    match extractStage epdf file.contents file_ext with
    | .error e => .error e
    | .ok resume_text =>
      if resume_text = [] ∨ (pyStrip isPySpace resume_text).length < 50 then
        .error (.http ⟨400, .insufficientText⟩)
      else
        match emeta resume_text with
        | .error m => .error (.exn m)
        | .ok resume_metadata =>
          match eemb resume_text with
          | .error m => .error (.exn m)
          | .ok embedding =>
            .ok { status := "success"
                  filename := file.filename
                  file_size_bytes := file.contents.length
                  text_length := resume_text.length
                  embedding_dimension := embedding.length
                  resume_text := resume_text
                  resume_metadata := resume_metadata
                  message := "Resume successfully embedded. Ready for matching." }

/-- The `except` clauses of `embed_resume` (`main.py` lines 101–110):
re-raise `HTTPException`s; classify other exceptions by message into the
connection-timeout 500 or the generic processing-error 500. -/
def handleExn {α : Type} : Except InnerErr α → Except HTTPException α
  | .ok a => .ok a
  | .error (.http e) => .error e
  | .error (.exn msg) =>
    if transientMsg msg then .error ⟨500, .connectionTimeout⟩
    else .error ⟨500, .processingError msg⟩

/-- The `embed_resume` endpoint of `main.py`: filename and extension checks
(lines 43–48) precede the `try` block; its body and handler are `tryBody`
and `handleExn`. -/
def embed_resume {μ : Type} (epdf : List Nat → Except String (List Nat))
    (emeta : List Nat → Except String μ)
    (eemb : List Nat → Except String (List Rat))
    (file : UploadFile) : Except HTTPException (EmbedResponse μ) :=
  if file.filename = "" then .error ⟨400, .filenameRequired⟩
  else if ¬(extOf file.filename = "pdf" ∨ extOf file.filename = "txt") then
    .error ⟨400, .unsupportedType⟩
  else handleExn (tryBody epdf emeta eemb file (extOf file.filename))

/-- A job record as read from `jobs.json` by `embed_jobs.py`. Fields accessed
with `job.get(key, default)` are optional; `job_id` is accessed with
`job["job_id"]` and therefore required. Python floats for the equity range are
modelled as rationals. -/
structure Job where
  job_id : String
  title : Option String := none
  company_name : Option String := none
  job_category : Option String := none
  employment_type : Option String := none
  work_location_type : Option String := none
  requirements : Option String := none
  responsibilities : Option String := none
  location : Option String := none
  idealCompanies : Option (List String) := none
  h1b_sponsorship : Option Bool := none
  yoe_min : Option Int := none
  equity_min : Option Rat := none
  equity_max : Option Rat := none
  status : Option String := none
  deriving DecidableEq, Repr

/-- The metadata record built for each upserted vector
(`embed_jobs.py` lines 112–131). -/
structure JobMetadata where
  company_name : String
  location : String
  job_category : String
  employment_type : String
  work_location_type : String
  status : String
  ideal_companies : List String
  h1b_sponsorship : Bool
  yoe_min : Int
  equity_min : Rat
  equity_max : Rat
  deriving DecidableEq, Repr

/-- Construction of the upsert metadata from a job record
(`embed_jobs.py` lines 112–131): each field is `job.get(key, default)` with
the coercions `bool`, `int`, `float` applied; `status` defaults to
`"active"`, `ideal_companies` is read from the `idealCompanies` key. -/
def job_metadata (j : Job) : JobMetadata :=
  { company_name := j.company_name.getD ""
    location := j.location.getD ""
    job_category := j.job_category.getD ""
    employment_type := j.employment_type.getD ""
    work_location_type := j.work_location_type.getD ""
    status := j.status.getD "active"
    ideal_companies := j.idealCompanies.getD []
    h1b_sponsorship := j.h1b_sponsorship.getD false
    yoe_min := j.yoe_min.getD 0
    equity_min := j.equity_min.getD 0
    equity_max := j.equity_max.getD 0 }

/-- Does the regular expression `<[^>]+>` match at the start of `'<' :: rest`?
It does exactly when `rest` starts with at least one character other than
`'>'` and a `'>'` occurs later: the run `rest.takeWhile (· != '>')` is then
nonempty and shorter than `rest`. -/
def tagAt (rest : List Char) : Bool :=
  let run := rest.takeWhile (fun d => d != '>')
  !run.isEmpty && run.length < rest.length

/-- `re.sub(r'<[^>]+>', '', text)` (`embed_jobs.py` line 45): scan left to
right, removing each non-overlapping leftmost match of `<[^>]+>`. -/
def stripTags : List Char → List Char
  | [] => []
  | c :: rest =>
    if c == '<' && tagAt rest then
      stripTags (rest.drop ((rest.takeWhile (fun d => d != '>')).length + 1))
    else c :: stripTags rest
termination_by l => l.length
decreasing_by
  · simp [List.length_drop]
    omega
  · simp

/-- Does any match of `<[^>]+>` occur anywhere in the list? -/
def hasTag : List Char → Bool
  | [] => false
  | c :: rest => (c == '<' && tagAt rest) || hasTag rest

/-- Python `" ".join`: concatenate the pieces with a single space between
consecutive pieces. -/
def joinSpace : List (List Char) → List Char
  | [] => []
  | [p] => p
  | p :: ps => p ++ ' ' :: joinSpace ps

/-- The `" ".join(parts)` of `create_job_text` (`embed_jobs.py` lines 34–44):
title, company name, category, requirements, responsibilities and location,
each defaulting to the empty string. -/
def jobText (j : Job) : List Char :=
  joinSpace
    [(j.title.getD "").data, (j.company_name.getD "").data,
     (j.job_category.getD "").data, (j.requirements.getD "").data,
     (j.responsibilities.getD "").data, (j.location.getD "").data]

/-- `create_job_text` (`embed_jobs.py` lines 32–46): join the six fields with
spaces, remove HTML tags, and strip the result. -/
def create_job_text (j : Job) : List Char :=
  pyStrip isPySpaceChar (stripTags (jobText j))

/-! ### Concrete collaborator stubs and inputs, used by witnesses -/

/-- A PDF extractor stub (never reached in the scenarios using it). -/
def pdfStub : List Nat → Except String (List Nat) :=
  fun _ => .error "pdf parsing unavailable"

/-- An attribute extractor that succeeds (the `μ := Unit` instantiation). -/
def metaStub : List Nat → Except String Unit := fun _ => .ok ()

/-- An embedding client returning a fixed 1536-dimension vector. -/
def embStub : List Nat → Except String (List Rat) :=
  fun _ => .ok (List.replicate 1536 0)

/-- An attribute extractor that raises an internal exception. -/
def crashMeta : List Nat → Except String Unit :=
  fun _ => .error "boom in resume metadata"

/-- A second raising attribute extractor with a different message. -/
def crashMeta2 : List Nat → Except String Unit :=
  fun _ => .error "metadata crash"

/-- A 10-byte TXT upload: decodes to 10 characters, below the 50 minimum. -/
def shortTxtFile : UploadFile := ⟨"r.txt", List.replicate 10 97⟩

/-- A PDF upload one byte over the 10MB limit. -/
def bigPdfFile : UploadFile := ⟨"big.pdf", List.replicate (10 * 1024 * 1024 + 1) 0⟩

/-- A TXT upload decoding to 50,001 characters, above the 50,000 maximum. -/
def longTxtFile : UploadFile := ⟨"long.txt", List.replicate 50001 97⟩

/-- A valid 60-character TXT upload. -/
def validTxtFile : UploadFile := ⟨"resume.txt", List.replicate 60 97⟩

/-- An empty TXT upload. -/
def emptyTxtFile : UploadFile := ⟨"empty.txt", []⟩

/-- A TXT upload whose bytes are not valid UTF-8 (`0xFF` start byte). -/
def badEncFile : UploadFile := ⟨"bad.txt", [255, 104, 105]⟩

/-- An upload with an extension outside the allow-set. -/
def docxFile : UploadFile := ⟨"resume.docx", [97]⟩

/-- An oversized upload with an extension outside the allow-set. -/
def hugeDocxFile : UploadFile :=
  ⟨"huge.docx", List.replicate (10 * 1024 * 1024 + 1) 0⟩

/-! ### Helper lemmas -/

instance {ε α : Type} [DecidableEq ε] [DecidableEq α] :
    DecidableEq (Except ε α) := fun a b =>
  match a, b with
  | .ok x, .ok y =>
    if h : x = y then .isTrue (by rw [h]) else .isFalse (by simp [h])
  | .error x, .error y =>
    if h : x = y then .isTrue (by rw [h]) else .isFalse (by simp [h])
  | .ok _, .error _ => .isFalse (by simp)
  | .error _, .ok _ => .isFalse (by simp)

theorem ext_supported_ne_empty {f : String}
    (h : extOf f = "pdf" ∨ extOf f = "txt") : f ≠ "" := by
  intro hf
  subst hf
  rcases h with h | h <;> exact absurd h (by decide)

theorem utf8DecodeFuel_replicate_97 (fuel n : Nat) (h : n ≤ fuel) :
    utf8DecodeFuel fuel (List.replicate n 97) = some (List.replicate n 97) := by
  induction fuel generalizing n with
  | zero =>
    have hn : n = 0 := Nat.le_zero.mp h
    subst hn
    rfl
  | succ fuel ih =>
    cases n with
    | zero => rfl
    | succ n =>
      rw [List.replicate_succ]
      simp only [utf8DecodeFuel]
      rw [show utf8Step 97 (List.replicate n 97) =
            some (97, List.replicate n 97) from rfl]
      show Option.map (fun t => 97 :: t) (utf8DecodeFuel fuel (List.replicate n 97)) =
        some (97 :: List.replicate n 97)
      rw [ih n (Nat.succ_le_succ_iff.mp h)]
      rfl

theorem utf8Decode_replicate_97 (n : Nat) :
    utf8Decode (List.replicate n 97) = some (List.replicate n 97) := by
  unfold utf8Decode
  rw [List.length_replicate]
  exact utf8DecodeFuel_replicate_97 n n le_rfl

theorem dropWhile_isPySpace_replicate_97 (n : Nat) :
    List.dropWhile isPySpace (List.replicate n 97) = List.replicate n 97 := by
  cases n with
  | zero => rfl
  | succ n => rw [List.replicate_succ, List.dropWhile_cons]; simp [isPySpace]

theorem pyStrip_replicate_97 (n : Nat) :
    pyStrip isPySpace (List.replicate n 97) = List.replicate n 97 := by
  unfold pyStrip
  rw [dropWhile_isPySpace_replicate_97, List.reverse_replicate,
    dropWhile_isPySpace_replicate_97, List.reverse_replicate]

theorem hugeDocx_oversized : MAX_FILE_SIZE < hugeDocxFile.contents.length := by
  rw [show hugeDocxFile.contents = List.replicate (10 * 1024 * 1024 + 1) 0 from rfl]
  rw [List.length_replicate]
  decide

theorem handleExn_http {α : Type} (e : HTTPException) :
    handleExn (α := α) (.error (.http e)) = .error e := rfl

theorem handleExn_exn_transient {α : Type} (msg : String)
    (h : transientMsg msg = true) :
    handleExn (α := α) (.error (.exn msg)) =
      .error ⟨500, .connectionTimeout⟩ := by
  show (if transientMsg msg = true then
          (Except.error ⟨500, Detail.connectionTimeout⟩ : Except HTTPException α)
        else Except.error ⟨500, Detail.processingError msg⟩) =
      Except.error ⟨500, Detail.connectionTimeout⟩
  rw [if_pos h]

theorem handleExn_exn_internal {α : Type} (msg : String)
    (h : transientMsg msg = false) :
    handleExn (α := α) (.error (.exn msg)) =
      .error ⟨500, .processingError msg⟩ := by
  show (if transientMsg msg = true then
          (Except.error ⟨500, Detail.connectionTimeout⟩ : Except HTTPException α)
        else Except.error ⟨500, Detail.processingError msg⟩) =
      Except.error ⟨500, Detail.processingError msg⟩
  rw [if_neg (by rw [h]; exact Bool.false_ne_true)]

theorem embed_resume_on_empty {μ : Type}
    (epdf : List Nat → Except String (List Nat))
    (emeta : List Nat → Except String μ)
    (eemb : List Nat → Except String (List Rat)) (file : UploadFile)
    (hext : extOf file.filename = "pdf" ∨ extOf file.filename = "txt")
    (hempty : file.contents = []) :
    embed_resume epdf emeta eemb file = .error ⟨400, .emptyFile⟩ := by
  have hname := ext_supported_ne_empty hext
  have htb : tryBody epdf emeta eemb file (extOf file.filename) =
      .error (.http ⟨400, .emptyFile⟩) := by
    unfold tryBody
    rw [hempty]
    rfl
  unfold embed_resume
  rw [if_neg hname, if_neg (not_not_intro hext), htb]
  rfl

theorem embed_resume_on_unsupported {μ : Type}
    (epdf : List Nat → Except String (List Nat))
    (emeta : List Nat → Except String μ)
    (eemb : List Nat → Except String (List Rat)) (file : UploadFile)
    (hname : file.filename ≠ "")
    (hext : ¬(extOf file.filename = "pdf" ∨ extOf file.filename = "txt")) :
    embed_resume epdf emeta eemb file = .error ⟨400, .unsupportedType⟩ := by
  unfold embed_resume
  rw [if_neg hname, if_pos hext]

theorem embed_resume_txt_success {μ : Type}
    (epdf : List Nat → Except String (List Nat))
    (emeta : List Nat → Except String μ)
    (eemb : List Nat → Except String (List Rat)) (file : UploadFile)
    (t : List Nat) (m : μ) (v : List Rat)
    (hext : extOf file.filename = "txt")
    (hsize : file.contents.length ≤ MAX_FILE_SIZE)
    (hnz : file.contents.length ≠ 0)
    (hdec : utf8Decode file.contents = some t)
    (hlen : 50 ≤ (pyStrip isPySpace t).length)
    (hmeta : emeta t = .ok m)
    (hemb : eemb t = .ok v) :
    embed_resume epdf emeta eemb file =
      .ok { status := "success", filename := file.filename,
            file_size_bytes := file.contents.length,
            text_length := t.length, embedding_dimension := v.length,
            resume_text := t, resume_metadata := m,
            message := "Resume successfully embedded. Ready for matching." } := by
  have hname := ext_supported_ne_empty (Or.inr hext)
  have hnp : ¬ extOf file.filename = "pdf" := by rw [hext]; decide
  have hne : ¬(t = [] ∨ (pyStrip isPySpace t).length < 50) := by
    rintro (h1 | h2)
    · subst h1
      simp [pyStrip] at hlen
    · omega
  have htb : tryBody epdf emeta eemb file (extOf file.filename) =
      .ok { status := "success", filename := file.filename,
            file_size_bytes := file.contents.length,
            text_length := t.length, embedding_dimension := v.length,
            resume_text := t, resume_metadata := m,
            message := "Resume successfully embedded. Ready for matching." } := by
    unfold tryBody
    rw [if_neg (by omega : ¬ file.contents.length > MAX_FILE_SIZE), if_neg hnz]
    unfold extractStage
    rw [if_neg hnp, hdec]
    simp [hne, hmeta, hemb]
  unfold embed_resume
  rw [if_neg hname, if_neg (not_not_intro (Or.inr hext)), htb]
  rfl

/-! ### Lemmas about tag removal and stripping -/

theorem stripTags_nil : stripTags [] = [] := by rw [stripTags]

theorem stripTags_cons (c : Char) (rest : List Char) :
    stripTags (c :: rest) =
      if c == '<' && tagAt rest then
        stripTags (rest.drop ((rest.takeWhile (fun d => d != '>')).length + 1))
      else c :: stripTags rest := by
  rw [stripTags]

theorem hasTag_cons (c : Char) (rest : List Char) :
    hasTag (c :: rest) = ((c == '<' && tagAt rest) || hasTag rest) := rfl

theorem mem_of_mem_stripTags {a : Char} : ∀ l, a ∈ stripTags l → a ∈ l := by
  intro l
  induction l using stripTags.induct with
  | case1 =>
    intro h
    rw [stripTags_nil] at h
    exact absurd h (List.not_mem_nil a)
  | case2 c rest hcond ih =>
    intro h
    rw [stripTags_cons, if_pos hcond] at h
    exact List.mem_cons_of_mem c (List.mem_of_mem_drop (ih h))
  | case3 c rest hcond ih =>
    intro h
    rw [stripTags_cons, if_neg hcond] at h
    rcases List.mem_cons.mp h with h1 | h1
    · exact h1 ▸ List.mem_cons_self c rest
    · exact List.mem_cons_of_mem c (ih h1)

theorem tagAt_true_iff (rest : List Char) :
    tagAt rest = true ↔
      rest.takeWhile (fun d => d != '>') ≠ [] ∧
      (rest.takeWhile (fun d => d != '>')).length < rest.length := by
  unfold tagAt
  simp [List.isEmpty_iff]

theorem hasTag_append_of_right {l2 : List Char} (h : hasTag l2 = true)
    (l1 : List Char) : hasTag (l1 ++ l2) = true := by
  induction l1 with
  | nil => simpa using h
  | cons c rest ih => rw [List.cons_append, hasTag_cons, ih, Bool.or_true]

theorem takeWhile_append_of_lt {p : Char → Bool} {l1 : List Char}
    (v : List Char) (h : (l1.takeWhile p).length < l1.length) :
    (l1 ++ v).takeWhile p = l1.takeWhile p := by
  rw [List.takeWhile_append, if_neg (by omega)]

theorem hasTag_append_of_left {l1 : List Char} (h : hasTag l1 = true)
    (v : List Char) : hasTag (l1 ++ v) = true := by
  induction l1 with
  | nil => exact absurd h (by rw [show hasTag [] = false from rfl]; decide)
  | cons c rest ih =>
    rw [hasTag_cons] at h
    rw [List.cons_append, hasTag_cons]
    rcases (Bool.or_eq_true _ _).mp h with h1 | h1
    · obtain ⟨hc, ht⟩ := (Bool.and_eq_true _ _).mp h1
      have ht' := (tagAt_true_iff rest).mp ht
      have htv : tagAt (rest ++ v) = true := by
        rw [tagAt_true_iff, takeWhile_append_of_lt v ht'.2]
        refine ⟨ht'.1, ?_⟩
        rw [List.length_append]
        omega
      rw [hc, htv, Bool.true_and, Bool.true_or]
    · rw [ih h1, Bool.or_true]

theorem hasTag_false_of_middle {l l1 : List Char} (h : hasTag l = false)
    (hinf : l1 <:+: l) : hasTag l1 = false := by
  cases hq : hasTag l1 with
  | false => rfl
  | true =>
    obtain ⟨s, t, heq⟩ := hinf
    subst heq
    have h2 := hasTag_append_of_right (hasTag_append_of_left hq t) s
    rw [List.append_assoc] at h
    rw [h2] at h
    exact Bool.noConfusion h

theorem pyStrip_middle {α : Type} (ws : α → Bool) (l : List α) :
    pyStrip ws l <:+: l := by
  obtain ⟨s, hs⟩ := List.dropWhile_suffix (l := l) ws
  have hpre : pyStrip ws l <+: List.dropWhile ws l := by
    apply List.reverse_suffix.mp
    rw [show (pyStrip ws l).reverse =
      List.dropWhile ws (List.dropWhile ws l).reverse from by
        unfold pyStrip
        rw [List.reverse_reverse]]
    exact List.dropWhile_suffix ws
  obtain ⟨t, ht⟩ := hpre
  exact ⟨s, t, by rw [List.append_assoc, ht, hs]⟩

theorem head?_dropWhile_not {α : Type} (p : α → Bool) {a : α} :
    ∀ l : List α, (List.dropWhile p l).head? = some a → p a = false := by
  intro l
  induction l with
  | nil => intro h; exact absurd h (by simp)
  | cons c rest ih =>
    intro h
    rw [List.dropWhile_cons] at h
    by_cases hp : p c = true
    · rw [if_pos hp] at h
      exact ih h
    · rw [if_neg hp] at h
      rw [List.head?_cons] at h
      injection h with h1
      subst h1
      exact Bool.eq_false_iff.mpr hp

theorem getLast?_dropWhile {α : Type} (p : α → Bool) (l : List α)
    (hne : List.dropWhile p l ≠ []) :
    (List.dropWhile p l).getLast? = l.getLast? := by
  obtain ⟨s, hs⟩ := List.dropWhile_suffix (l := l) p
  cases hd : (List.dropWhile p l).getLast? with
  | none => exact absurd (List.getLast?_eq_none_iff.mp hd) hne
  | some v =>
    rw [← hs, List.getLast?_append, hd]
    rfl

theorem pyStrip_head?_not {α : Type} (ws : α → Bool) (l : List α) {a : α}
    (h : (pyStrip ws l).head? = some a) : ws a = false := by
  unfold pyStrip at h
  rw [List.head?_reverse] at h
  have hne : List.dropWhile ws (List.dropWhile ws l).reverse ≠ [] := by
    intro hz
    rw [hz] at h
    exact Option.noConfusion h
  rw [getLast?_dropWhile ws _ hne, List.getLast?_reverse] at h
  exact head?_dropWhile_not ws _ h

theorem pyStrip_getLast?_not {α : Type} (ws : α → Bool) (l : List α) {a : α}
    (h : (pyStrip ws l).getLast? = some a) : ws a = false := by
  unfold pyStrip at h
  rw [List.getLast?_reverse] at h
  exact head?_dropWhile_not ws _ h

theorem hasTag_stripTags (l : List Char) : hasTag (stripTags l) = false := by
  induction l using stripTags.induct with
  | case1 => rw [stripTags_nil]; rfl
  | case2 c rest hcond ih => rw [stripTags_cons, if_pos hcond]; exact ih
  | case3 c rest hcond ih =>
    rw [stripTags_cons, if_neg hcond, hasTag_cons, ih, Bool.or_false]
    cases hcb : (c == '<') with
    | false => rw [Bool.false_and]
    | true =>
      rw [Bool.true_and]
      have htag : tagAt rest = false := by
        cases htg : tagAt rest with
        | false => rfl
        | true => exact absurd (by rw [hcb, htg]; rfl) hcond
      have hnot := (tagAt_true_iff rest).not.mp (by rw [htag]; decide)
      push_neg at hnot
      by_cases hrun : rest.takeWhile (fun d => d != '>') = []
      · cases rest with
        | nil => rw [stripTags_nil]; rfl
        | cons r rest2 =>
          have hr : r = '>' := by
            by_contra hne
            rw [List.takeWhile_cons, if_pos (bne_iff_ne.mpr hne)] at hrun
            exact absurd hrun (List.cons_ne_nil _ _)
          subst hr
          rw [stripTags_cons, if_neg (by simp [tagAt])]
          simp [tagAt, List.takeWhile_cons]
      · have hlen := hnot hrun
        have hle := (List.takeWhile_prefix
          (l := rest) (fun d => d != '>')).length_le
        have hself : rest.takeWhile (fun d => d != '>') = rest :=
          (List.takeWhile_prefix _).eq_of_length (by omega)
        have hall := List.takeWhile_eq_self_iff.mp hself
        have hallS : ∀ x ∈ stripTags rest, (x != '>') = true :=
          fun x hx => hall x (mem_of_mem_stripTags rest hx)
        have hselfS : (stripTags rest).takeWhile (fun d => d != '>') =
            stripTags rest := List.takeWhile_eq_self_iff.mpr hallS
        cases hq : tagAt (stripTags rest) with
        | false => rfl
        | true =>
          obtain ⟨_, hlt⟩ := (tagAt_true_iff _).mp hq
          rw [hselfS] at hlt
          exact absurd hlt (lt_irrefl _)

/-! ### Claims -/

/-- C1: for every uploaded file that passes the filename, extension, size and
emptiness checks but whose extracted text (PDF extractor output, or UTF-8
decoding for TXT) has trimmed length below 50 characters — including the
empty-text case — `embed_resume` fails with the 400 insufficient-text error.
The conclusion holds for every attribute extractor `emeta` and every embedding
client `eemb`, so the embedding step is never reached and a successful
empty-embedding result is impossible. -/
theorem insufficientText_rejected {μ : Type}
    (epdf : List Nat → Except String (List Nat))
    (emeta : List Nat → Except String μ)
    (eemb : List Nat → Except String (List Rat))
    (file : UploadFile) (t : List Nat)
    (hext : extOf file.filename = "pdf" ∨ extOf file.filename = "txt")
    (hsize : file.contents.length ≤ MAX_FILE_SIZE)
    (hnz : file.contents.length ≠ 0)
    (hex : if extOf file.filename = "pdf" then epdf file.contents = .ok t
           else utf8Decode file.contents = some t)
    (hshort : (pyStrip isPySpace t).length < 50) :
    embed_resume epdf emeta eemb file = .error ⟨400, .insufficientText⟩ := by
  have hname := ext_supported_ne_empty hext
  have htb : tryBody epdf emeta eemb file (extOf file.filename) =
      .error (.http ⟨400, .insufficientText⟩) := by
    unfold tryBody
    rw [if_neg (by omega : ¬ file.contents.length > MAX_FILE_SIZE), if_neg hnz]
    by_cases hpdf : extOf file.filename = "pdf"
    · rw [if_pos hpdf] at hex
      unfold extractStage
      rw [if_pos hpdf, hex]
      simp [hshort]
    · rw [if_neg hpdf] at hex
      unfold extractStage
      rw [if_neg hpdf, hex]
      simp [hshort]
  unfold embed_resume
  rw [if_neg hname, if_neg (not_not_intro hext), htb]
  rfl

/-- Witness for C1 at a 10-character TXT upload. -/
theorem insufficientText_rejected_witness :
    embed_resume pdfStub metaStub embStub shortTxtFile =
      .error ⟨400, .insufficientText⟩ :=
  insufficientText_rejected pdfStub metaStub embStub shortTxtFile
    (List.replicate 10 97) (Or.inr (by decide)) (by decide) (by decide)
    (by rw [if_neg (show ¬extOf shortTxtFile.filename = "pdf" by decide)]
        decide)
    (by decide)

/-- C2: for every uploaded file with a supported extension whose byte length
exceeds `MAX_FILE_SIZE` (10MB), `embed_resume` fails with the 400
file-too-large error. The conclusion holds for every PDF extractor, attribute
extractor and embedding client, so the error is raised before text
extraction, attribute extraction and embedding, and no embedding call is
made. -/
theorem fileTooLarge_rejected {μ : Type}
    (epdf : List Nat → Except String (List Nat))
    (emeta : List Nat → Except String μ)
    (eemb : List Nat → Except String (List Rat))
    (file : UploadFile)
    (hext : extOf file.filename = "pdf" ∨ extOf file.filename = "txt")
    (hbig : MAX_FILE_SIZE < file.contents.length) :
    embed_resume epdf emeta eemb file =
      .error ⟨400, .fileTooLarge file.contents.length⟩ := by
  have hname := ext_supported_ne_empty hext
  have htb : tryBody epdf emeta eemb file (extOf file.filename) =
      .error (.http ⟨400, .fileTooLarge file.contents.length⟩) := by
    unfold tryBody
    rw [if_pos (by omega : file.contents.length > MAX_FILE_SIZE)]
  unfold embed_resume
  rw [if_neg hname, if_neg (not_not_intro hext), htb]
  rfl

/-- Witness for C2 at a PDF upload of 10MB + 1 byte. -/
theorem fileTooLarge_rejected_witness :
    embed_resume pdfStub metaStub embStub bigPdfFile =
      .error ⟨400, .fileTooLarge (10 * 1024 * 1024 + 1)⟩ := by
  have h := fileTooLarge_rejected pdfStub metaStub embStub bigPdfFile
    (Or.inl (by decide))
    (by rw [show bigPdfFile.contents = List.replicate (10 * 1024 * 1024 + 1) 0 from rfl,
          List.length_replicate]
        decide)
  rw [show bigPdfFile.contents = List.replicate (10 * 1024 * 1024 + 1) 0 from rfl,
    List.length_replicate] at h
  exact h

/-- C3, the failing TXT path: a 50,001-byte TXT upload is accepted and its
decoded text is not truncated to 50,000 characters — the success response
carries the full 50,001-character text and reports `text_length = 50001`,
although the endpoint's own docstring states a 50,000-character maximum
(enforced nowhere on the TXT path of `main.py`). -/
theorem txt_path_not_truncated :
    embed_resume pdfStub metaStub embStub longTxtFile =
      .ok { status := "success", filename := "long.txt",
            file_size_bytes := 50001, text_length := 50001,
            embedding_dimension := 1536,
            resume_text := List.replicate 50001 97, resume_metadata := (),
            message := "Resume successfully embedded. Ready for matching." } ∧
    50000 < 50001 := by
  refine ⟨?_, by decide⟩
  have h := embed_resume_txt_success pdfStub metaStub embStub longTxtFile
    (List.replicate 50001 97) () (List.replicate 1536 0)
    (by decide)
    (by rw [show longTxtFile.contents = List.replicate 50001 97 from rfl]
        rw [List.length_replicate]
        decide)
    (by rw [show longTxtFile.contents = List.replicate 50001 97 from rfl]
        rw [List.length_replicate]
        decide)
    (by rw [show longTxtFile.contents = List.replicate 50001 97 from rfl]
        exact utf8Decode_replicate_97 50001)
    (by rw [pyStrip_replicate_97, List.length_replicate]; omega)
    rfl rfl
  simp only [show longTxtFile.contents = List.replicate 50001 97 from rfl,
    show longTxtFile.filename = "long.txt" from rfl,
    List.length_replicate] at h
  exact h

/-- C4 counterexample: an internal exception raised by the attribute
extractor is not caught and treated as "no attributes extracted" — it
propagates to the generic handler and aborts `embed_resume` with a 500
internal error on an otherwise valid 60-character TXT upload. -/
theorem attr_exn_aborts_cex :
    embed_resume pdfStub crashMeta embStub validTxtFile =
      .error ⟨500, .processingError "boom in resume metadata"⟩ := by decide

/-- C4 amended: `main.py` wraps no dedicated handler around
`extract_resume_metadata`; if attribute extraction raises an internal
exception (message not matching the timeout/connection test), the pipeline
aborts with the generic 500 processing error instead of proceeding with
empty attributes, for every uploaded file that reaches the attribute
extraction stage. -/
theorem attr_exn_propagates_to_500 {μ : Type}
    (epdf : List Nat → Except String (List Nat))
    (emeta : List Nat → Except String μ)
    (eemb : List Nat → Except String (List Rat))
    (file : UploadFile) (t : List Nat) (msg : String)
    (hext : extOf file.filename = "pdf" ∨ extOf file.filename = "txt")
    (hsize : file.contents.length ≤ MAX_FILE_SIZE)
    (hnz : file.contents.length ≠ 0)
    (hex : if extOf file.filename = "pdf" then epdf file.contents = .ok t
           else utf8Decode file.contents = some t)
    (hlen : 50 ≤ (pyStrip isPySpace t).length)
    (hmeta : emeta t = .error msg)
    (hmsg : transientMsg msg = false) :
    embed_resume epdf emeta eemb file = .error ⟨500, .processingError msg⟩ := by
  have hname := ext_supported_ne_empty hext
  have hne : ¬(t = [] ∨ (pyStrip isPySpace t).length < 50) := by
    rintro (h1 | h2)
    · subst h1
      simp [pyStrip] at hlen
    · omega
  have htb : tryBody epdf emeta eemb file (extOf file.filename) =
      .error (.exn msg) := by
    unfold tryBody
    rw [if_neg (by omega : ¬ file.contents.length > MAX_FILE_SIZE), if_neg hnz]
    unfold extractStage
    by_cases hpdf : extOf file.filename = "pdf"
    · rw [if_pos hpdf] at hex
      rw [if_pos hpdf, hex]
      simp [hne, hmeta]
    · rw [if_neg hpdf] at hex
      rw [if_neg hpdf, hex]
      simp [hne, hmeta]
  unfold embed_resume
  rw [if_neg hname, if_neg (not_not_intro hext), htb]
  exact handleExn_exn_internal msg hmsg

/-- Witness for the amended C4 at a valid TXT upload and a raising attribute
extractor. -/
theorem attr_exn_propagates_to_500_witness :
    embed_resume pdfStub crashMeta2 embStub validTxtFile =
      .error ⟨500, .processingError "metadata crash"⟩ :=
  attr_exn_propagates_to_500 pdfStub crashMeta2 embStub validTxtFile
    (List.replicate 60 97) "metadata crash"
    (Or.inr (by decide)) (by decide) (by decide)
    (by rw [if_neg (show ¬extOf validTxtFile.filename = "pdf" by decide)]
        decide)
    (by rw [pyStrip_replicate_97, List.length_replicate]; omega)
    (by decide) (by decide)

/-- C5: `embed_resume` on a supported-extension upload with empty bytes fails
with the 400 empty-file error, and on an upload whose declared extension is
outside the allow-set (pdf, txt) fails with the 400 unsupported-type error,
for every PDF extractor, attribute extractor and embedding client. -/
theorem extract_empty_and_unsupported {μ : Type}
    (epdf : List Nat → Except String (List Nat))
    (emeta : List Nat → Except String μ)
    (eemb : List Nat → Except String (List Rat)) :
    (∀ file : UploadFile,
        (extOf file.filename = "pdf" ∨ extOf file.filename = "txt") →
        file.contents = [] →
        embed_resume epdf emeta eemb file = .error ⟨400, .emptyFile⟩) ∧
    (∀ file : UploadFile, file.filename ≠ "" →
        ¬(extOf file.filename = "pdf" ∨ extOf file.filename = "txt") →
        embed_resume epdf emeta eemb file = .error ⟨400, .unsupportedType⟩) :=
  ⟨fun file hext hempty => embed_resume_on_empty epdf emeta eemb file hext hempty,
   fun file hname hext => embed_resume_on_unsupported epdf emeta eemb file hname hext⟩

/-- Witness for C5 at an empty TXT upload and a `.docx` upload. -/
theorem extract_empty_and_unsupported_witness :
    embed_resume pdfStub metaStub embStub emptyTxtFile =
      .error ⟨400, .emptyFile⟩ ∧
    embed_resume pdfStub metaStub embStub docxFile =
      .error ⟨400, .unsupportedType⟩ :=
  ⟨(extract_empty_and_unsupported pdfStub metaStub embStub).1 emptyTxtFile
      (Or.inr (by decide)) rfl,
   (extract_empty_and_unsupported pdfStub metaStub embStub).2 docxFile
      (by decide) (by decide)⟩

/-- C6: for every TXT-extension upload that passes the size and emptiness
checks but whose bytes are not valid UTF-8 (strict decoding fails),
`embed_resume` fails with the 400 invalid-encoding error, for every
collaborator — decoding never silently replaces malformed byte sequences
with a success. -/
theorem invalid_utf8_rejected {μ : Type}
    (epdf : List Nat → Except String (List Nat))
    (emeta : List Nat → Except String μ)
    (eemb : List Nat → Except String (List Rat)) (file : UploadFile)
    (hext : extOf file.filename = "txt")
    (hsize : file.contents.length ≤ MAX_FILE_SIZE)
    (hnz : file.contents.length ≠ 0)
    (hdec : utf8Decode file.contents = none) :
    embed_resume epdf emeta eemb file = .error ⟨400, .invalidEncoding⟩ := by
  have hname := ext_supported_ne_empty (Or.inr hext)
  have hnp : ¬ extOf file.filename = "pdf" := by rw [hext]; decide
  have htb : tryBody epdf emeta eemb file (extOf file.filename) =
      .error (.http ⟨400, .invalidEncoding⟩) := by
    unfold tryBody
    rw [if_neg (by omega : ¬ file.contents.length > MAX_FILE_SIZE), if_neg hnz]
    unfold extractStage
    rw [if_neg hnp, hdec]
  unfold embed_resume
  rw [if_neg hname, if_neg (not_not_intro (Or.inr hext)), htb]
  rfl

/-- Witness for C6 at a TXT upload starting with the invalid byte `0xFF`. -/
theorem invalid_utf8_rejected_witness :
    embed_resume pdfStub metaStub embStub badEncFile =
      .error ⟨400, .invalidEncoding⟩ :=
  invalid_utf8_rejected pdfStub metaStub embStub badEncFile
    (by decide) (by decide) (by decide) (by decide)

/-- C9: validation order. For an upload with a nonempty filename whose
extension is outside the allow-set, `embed_resume` fails with
unsupported-type regardless of the contents — in particular even when the
contents are also oversized or empty. For an upload with a supported
extension and empty contents, the result is the empty-file error (the size
comparison at `main.py` line 56 precedes the emptiness check at line 64, and
an empty file never exceeds the maximum, so the emptiness error is the one
raised). -/
theorem validation_order {μ : Type}
    (epdf : List Nat → Except String (List Nat))
    (emeta : List Nat → Except String μ)
    (eemb : List Nat → Except String (List Rat)) (file : UploadFile) :
    (file.filename ≠ "" →
      ¬(extOf file.filename = "pdf" ∨ extOf file.filename = "txt") →
      (MAX_FILE_SIZE < file.contents.length ∨ file.contents = []) →
      embed_resume epdf emeta eemb file = .error ⟨400, .unsupportedType⟩) ∧
    ((extOf file.filename = "pdf" ∨ extOf file.filename = "txt") →
      file.contents = [] →
      embed_resume epdf emeta eemb file = .error ⟨400, .emptyFile⟩) :=
  ⟨fun hname hext _ => embed_resume_on_unsupported epdf emeta eemb file hname hext,
   fun hext hempty => embed_resume_on_empty epdf emeta eemb file hext hempty⟩

/-- C7 helper: every `HTTPException` raised inside the `try` body carries
status 400 and a client-input detail. -/
theorem tryBody_http_classified {μ : Type}
    (epdf : List Nat → Except String (List Nat))
    (emeta : List Nat → Except String μ)
    (eemb : List Nat → Except String (List Rat))
    (file : UploadFile) (ext : String) (e : HTTPException)
    (h : tryBody epdf emeta eemb file ext = .error (.http e)) :
    e.status_code = 400 ∧ errClass e.detail = .clientInput := by
  unfold tryBody extractStage at h
  repeat' split at h
  any_goals first
    | exact Except.noConfusion h
    | (injection h with h1; exact InnerErr.noConfusion h1)
    | (injection h with h1; injection h1 with h2; subst h2; exact ⟨rfl, rfl⟩)
  all_goals (injection h with h1; subst h1; rename_i heq; repeat' split at heq)
  all_goals first
    | exact Except.noConfusion heq
    | (injection heq with h1; exact InnerErr.noConfusion h1)
    | (injection heq with h1; injection h1 with h2; subst h2; exact ⟨rfl, rfl⟩)

/-- The concrete unsupported-type exception, for the C7 witness. -/
def unsupportedExn : HTTPException := ⟨400, .unsupportedType⟩

/-- C7: every terminal failure of `embed_resume` falls into exactly one of
the three §7 classes, read off from its payload: a client-input error (status
400 with one of the six distinct client details), the provider-transient
connection-timeout 500 (raised exactly for collaborator exceptions whose
message matches the timeout/connection test), or the generic internal 500
carrying a message that does not match that test — so transient provider
errors are surfaced distinctly both from client-input errors and from other
internal failures. -/
theorem error_taxonomy {μ : Type}
    (epdf : List Nat → Except String (List Nat))
    (emeta : List Nat → Except String μ)
    (eemb : List Nat → Except String (List Rat))
    (file : UploadFile) (e : HTTPException)
    (h : embed_resume epdf emeta eemb file = .error e) :
    (e.status_code = 400 ∧ errClass e.detail = .clientInput)
    ∨ (e = ⟨500, .connectionTimeout⟩ ∧ errClass e.detail = .providerTransient)
    ∨ (∃ msg, e = ⟨500, .processingError msg⟩ ∧
        errClass e.detail = .internalError ∧ transientMsg msg = false) := by
  unfold embed_resume at h
  split at h
  · injection h with h1
    subst h1
    exact Or.inl ⟨rfl, rfl⟩
  · split at h
    · injection h with h1
      subst h1
      exact Or.inl ⟨rfl, rfl⟩
    · rcases htb : tryBody epdf emeta eemb file (extOf file.filename) with err | a
      · cases err with
        | http e0 =>
          rw [htb, handleExn_http] at h
          injection h with h1
          subst h1
          exact Or.inl (tryBody_http_classified epdf emeta eemb file
            (extOf file.filename) e0 htb)
        | exn msg =>
          cases htm : transientMsg msg with
          | false =>
            rw [htb, handleExn_exn_internal msg htm] at h
            injection h with h1
            subst h1
            exact Or.inr (Or.inr ⟨msg, rfl, rfl, htm⟩)
          | true =>
            rw [htb, handleExn_exn_transient msg htm] at h
            injection h with h1
            subst h1
            exact Or.inr (Or.inl ⟨rfl, rfl⟩)
      · rw [htb] at h
        rw [show handleExn (Except.ok a) = Except.ok a from rfl] at h
        exact Except.noConfusion h

/-- Witness for C7 at a `.docx` upload, which fails with the unsupported-type
client error. -/
theorem error_taxonomy_witness :
    (unsupportedExn.status_code = 400 ∧
      errClass unsupportedExn.detail = .clientInput)
    ∨ (unsupportedExn = ⟨500, .connectionTimeout⟩ ∧
        errClass unsupportedExn.detail = .providerTransient)
    ∨ (∃ msg, unsupportedExn = ⟨500, .processingError msg⟩ ∧
        errClass unsupportedExn.detail = .internalError ∧
        transientMsg msg = false) :=
  error_taxonomy pdfStub metaStub embStub docxFile unsupportedExn (by decide)

/-- A job record violating the §3 invariant `yoe_min ≥ 0`. -/
def badJob : Job := { job_id := "job-neg-yoe", yoe_min := some (-1) }

/-- C8 counterexample: the ingestion job copies `yoe_min` from the source
record without enforcement, so a job record carrying `yoe_min = -1` yields an
upserted metadata record with `yoe_min = -1 < 0`, violating the claimed
invariant. -/
theorem job_metadata_invariant_cex : (job_metadata badJob).yoe_min < 0 := by
  decide

/-- C8 amended: each upserted metadata record carries the fixed field set of
`JobMetadata` (names and types as in `embed_jobs.py` lines 112–131), and it
satisfies the Job attribute invariants `yoe_min ≥ 0` and
`equity_min ≤ equity_max` whenever the source job record (with absent numeric
fields defaulting to 0) satisfies them — the ingestion job preserves the
invariants but does not enforce them. -/
theorem job_metadata_invariants_preserved (j : Job)
    (hy : 0 ≤ j.yoe_min.getD 0)
    (he : j.equity_min.getD 0 ≤ j.equity_max.getD 0) :
    0 ≤ (job_metadata j).yoe_min ∧
      (job_metadata j).equity_min ≤ (job_metadata j).equity_max ∧
      (job_metadata j).yoe_min = j.yoe_min.getD 0 ∧
      (job_metadata j).equity_min = j.equity_min.getD 0 ∧
      (job_metadata j).equity_max = j.equity_max.getD 0 :=
  ⟨hy, he, rfl, rfl, rfl⟩

/-- A job record satisfying the §3 invariants. -/
def goodJob : Job :=
  { job_id := "job-1", company_name := some "Acme", yoe_min := some 3,
    equity_min := some 0, equity_max := some 1 }

/-- Witness for the amended C8 at a well-formed job record. -/
theorem job_metadata_invariants_preserved_witness :
    0 ≤ (job_metadata goodJob).yoe_min ∧
      (job_metadata goodJob).equity_min ≤ (job_metadata goodJob).equity_max ∧
      (job_metadata goodJob).yoe_min = goodJob.yoe_min.getD 0 ∧
      (job_metadata goodJob).equity_min = goodJob.equity_min.getD 0 ∧
      (job_metadata goodJob).equity_max = goodJob.equity_max.getD 0 :=
  job_metadata_invariants_preserved goodJob (by decide) (by decide)

/-- Witness for C9 at an oversized upload with a bad extension and at an
empty TXT upload. -/
theorem validation_order_witness :
    embed_resume pdfStub metaStub embStub hugeDocxFile =
      .error ⟨400, .unsupportedType⟩ ∧
    embed_resume pdfStub metaStub embStub emptyTxtFile =
      .error ⟨400, .emptyFile⟩ :=
  ⟨(validation_order pdfStub metaStub embStub hugeDocxFile).1
      (by decide) (by decide) (Or.inl hugeDocx_oversized),
   (validation_order pdfStub metaStub embStub emptyTxtFile).2
      (Or.inr (by decide)) rfl⟩

/-- C10: for every job record, `create_job_text` returns the space-join of
title, company name, category, requirements, responsibilities and location
(missing fields contributing the empty string, as `jobText`), with tag
removal and stripping applied; no `<[^>]+>`-style tag fragment remains in
the result, and the result has no leading or trailing whitespace (its first
and last characters, when present, are not whitespace). -/
theorem create_job_text_spec (j : Job) :
    create_job_text j = pyStrip isPySpaceChar (stripTags (jobText j)) ∧
    hasTag (create_job_text j) = false ∧
    (∀ a, (create_job_text j).head? = some a → isPySpaceChar a = false) ∧
    (∀ a, (create_job_text j).getLast? = some a → isPySpaceChar a = false) := by
  refine ⟨rfl, ?_, ?_, ?_⟩
  · exact hasTag_false_of_middle (hasTag_stripTags (jobText j))
      (pyStrip_middle isPySpaceChar (stripTags (jobText j)))
  · intro a h
    exact pyStrip_head?_not isPySpaceChar (stripTags (jobText j)) h
  · intro a h
    exact pyStrip_getLast?_not isPySpaceChar (stripTags (jobText j)) h

/-- A job record with markup and surrounding whitespace in its title. -/
def jobW : Job := { job_id := "jw", title := some " <b>Senior</b> " }

/-- Witness for C10 at `jobW`, whose cleaned text is `Senior`. -/
theorem create_job_text_spec_witness :
    hasTag (create_job_text jobW) = false ∧
    isPySpaceChar 'S' = false ∧ isPySpaceChar 'r' = false :=
  ⟨(create_job_text_spec jobW).2.1,
   (create_job_text_spec jobW).2.2.1 'S'
     (by simp [create_job_text, jobText, jobW, joinSpace, stripTags, tagAt,
        pyStrip, isPySpaceChar, isPySpace]),
   (create_job_text_spec jobW).2.2.2 'r'
     (by simp [create_job_text, jobText, jobW, joinSpace, stripTags, tagAt,
        pyStrip, isPySpaceChar, isPySpace])⟩

end ResumeMatcher
